import Mathlib

/-!
Shallow embedding of the GUARDIAN authentication core
(`src/server/controllers/authController.js`, `src/server/models/User.js`,
the two-factor controller, and the authorization middleware in
`src/server/services/pushNotificationService.js`).

Modelling conventions:
* Times are JavaScript epoch milliseconds (`Millis := Nat`); JWT `iat`/`exp`
  claims use epoch seconds (`now / 1000`), as the `jsonwebtoken` library does.
* A signed JWT is modelled by the record of its claims: `jsonwebtoken` with
  HS256 is deterministic, so two tokens are the same string exactly when their
  claims coincide.  Only authentically signed tokens are modelled; forged
  tokens are outside the claims under study.
* `bcrypt.compare`, `speakeasy.totp.verify` and SHA-256 are black boxes and
  enter as function parameters (`bcryptCompare`, `totpValid`, `hashFn`).
* Each Express handler becomes a pure function from its inputs and the looked
  up user document to an outcome record carrying the HTTP-level response and
  the user document as persisted after the request (`savedUser` is the stored
  document: it differs from the input only on the paths that call
  `user.save()`).
-/

namespace Guardian

/-- JavaScript epoch milliseconds (`Date.now()`). -/
abbrev Millis := Nat

/-- Claims of a refresh-token JWT: `jwt.sign({ userId }, JWT_REFRESH_SECRET,
{ expiresIn: "7d" })` signs `{ userId, iat, exp }` with `iat` the current epoch
second and `exp = iat + 7 days`. -/
structure RefreshTok where
  userId : Nat
  iatSec : Nat
  expSec : Nat
deriving DecidableEq, Repr

/-- Seconds in the `"7d"` refresh expiry. -/
def refreshExpireSec : Nat := 7 * 24 * 60 * 60

/-- The refresh-token string minted for `userId` at time `now`. -/
def mkRefreshTok (userId : Nat) (now : Millis) : RefreshTok :=
  ⟨userId, now / 1000, now / 1000 + refreshExpireSec⟩

/-- Nested permission mapping category → action → Bool, as stored on the user
document and embedded in access tokens. -/
abbrev Permissions := List (String × List (String × Bool))

/-- The JavaScript truthy test `permissions && permissions[category] &&
permissions[category][action] === true`. -/
def permGet (perms : Permissions) (category action : String) : Bool :=
  match List.lookup category perms with
  | some catMap => (List.lookup action catMap).getD false
  | none => false

/-- Access-token claims (`generateTokenPair` payload plus `iat`/`exp`;
`expiresIn: "15m"`). -/
structure AccessTok where
  userId : Nat
  email : String
  role : String
  storageCompanyId : Nat
  permissions : Permissions
  isEmailVerified : Bool
  iatSec : Nat
  expSec : Nat
deriving DecidableEq, Repr

/-- One entry of the user's `refreshTokens` array. -/
structure StoredRefreshToken where
  token : RefreshTok
  createdAt : Millis
  expiresAt : Millis
  userAgent : Option String
  ipAddress : Option String
deriving DecidableEq, Repr

/-- The `twoFactorAuth` subdocument; `backupCodes` holds SHA-256 hex digests of
the plaintext codes. -/
structure TwoFactorAuth where
  enabled : Bool
  secret : Option String
  backupCodes : List String
  lastUsedAt : Option Millis
deriving DecidableEq, Repr

/-- The user document (the fields of `userSchema` the auth core reads or
writes; `password` holds the bcrypt hash). -/
structure UserDoc where
  id : Nat
  userType : String
  storageCompanyId : Nat
  clientBusinessId : Option Nat
  email : String
  password : String
  permissions : Permissions
  twoFactorAuth : TwoFactorAuth
  lastLoginAt : Option Millis
  lastLoginIP : Option String
  lastFailedLogin : Option Millis
  failedLoginAttempts : Nat
  accountLockedUntil : Option Millis
  refreshTokens : List StoredRefreshToken
  isActive : Bool
  isEmailVerified : Bool
deriving DecidableEq, Repr

/-- `{ accessToken, refreshToken }` from `generateTokenPair`. -/
structure TokenPair where
  accessToken : AccessTok
  refreshToken : RefreshTok
deriving DecidableEq, Repr

/-- Seconds in the `"15m"` access expiry. -/
def accessExpireSec : Nat := 15 * 60

/-- `generateTokenPair(user)` at time `now`. -/
def generateTokenPair (u : UserDoc) (now : Millis) : TokenPair :=
  { accessToken :=
      { userId := u.id
        email := u.email
        role := u.userType
        storageCompanyId := u.storageCompanyId
        permissions := u.permissions
        isEmailVerified := u.isEmailVerified
        iatSec := now / 1000
        expSec := now / 1000 + accessExpireSec }
    refreshToken := mkRefreshTok u.id now }

/-- `refreshTokens.push(entry)` followed by `if (length > 5) slice(-5)`:
append, then keep only the last 5 entries. -/
def pushCapped (l : List StoredRefreshToken) (e : StoredRefreshToken) :
    List StoredRefreshToken :=
  let l2 := l ++ [e]
  if l2.length > 5 then l2.drop (l2.length - 5) else l2

/-- The stored entry pushed alongside a freshly minted refresh token
(`expiresAt: Date.now() + 7*24*60*60*1000`). -/
def newRefreshEntry (tok : RefreshTok) (now : Millis)
    (userAgent ipAddress : Option String) : StoredRefreshToken :=
  ⟨tok, now, now + 7 * 24 * 60 * 60 * 1000, userAgent, ipAddress⟩

/-- Claims of the temporary 2FA session JWT
(`jwt.sign({ userId, step: "2fa_required" }, JWT_SECRET, { expiresIn: "10m" })`). -/
structure TempSession where
  userId : Nat
  step : String
  expSec : Nat
deriving DecidableEq, Repr

/-- Mint the pending-2FA session token at time `now`. -/
def mkTempSession (userId : Nat) (now : Millis) : TempSession :=
  ⟨userId, "2fa_required", now / 1000 + 600⟩

/-- `Math.ceil((accountLockedUntil - new Date()) / (60 * 1000))`. -/
def lockMinutesRemaining (lockUntil now : Millis) : Nat :=
  (lockUntil - now + (60 * 1000 - 1)) / (60 * 1000)

/-- Response of the `login` handler. -/
inductive LoginResp
  | badRequest (error : String)
  | unauthorized (error : String)
  | twoFactorChallenge (userId : Nat) (email : String) (tempSession : TempSession)
  | loggedIn (tokens : TokenPair)
deriving DecidableEq, Repr

/-- Outcome of one `login` request: the response, the user document as it is
persisted in the store afterwards (`none` when no user matched the lookup),
and whether `bcrypt.compare` was invoked against the stored hash. -/
structure LoginOutcome where
  resp : LoginResp
  savedUser : Option UserDoc
  passwordCompared : Bool
deriving Repr

/-- Request body and metadata of a `login` call. -/
structure LoginReq where
  email : String
  password : String
  ip : Option String
  userAgent : Option String
deriving Repr

/-- The tail of `login` after the lock check has passed: reset counters,
branch on 2FA, and for non-2FA users push a refresh token and save. -/
def loginIssueOrChallenge (req : LoginReq) (u : UserDoc) (now : Millis) :
    LoginOutcome :=
  if u.twoFactorAuth.enabled then
    -- 2FA branch: the handler returns here without calling user.save(), so
    -- the in-memory reset of the counters is never persisted.
    ⟨.twoFactorChallenge u.id u.email (mkTempSession u.id now), some u, true⟩
  else
    let u1 : UserDoc :=
      { u with
        failedLoginAttempts := 0
        accountLockedUntil := none
        lastLoginAt := some now
        lastLoginIP := req.ip }
    let tokens := generateTokenPair u now
    let entry := newRefreshEntry tokens.refreshToken now req.userAgent req.ip
    let u2 : UserDoc := { u1 with refreshTokens := pushCapped u1.refreshTokens entry }
    ⟨.loggedIn tokens, some u2, true⟩

/-- The `login` handler (`POST /api/auth/login`).  `user?` is the result of
the `User.findOne({ email, isActive: true })` lookup; `companyActive` and
`clientActive` are the `isActive` flags of the populated storage company and
client business. -/
def login (bcryptCompare : String → String → Bool) (req : LoginReq)
    (user? : Option UserDoc) (companyActive clientActive : Bool)
    (now : Millis) : LoginOutcome :=
  if req.email = "" ∨ req.password = "" then
    ⟨.badRequest "Email and password are required", user?, false⟩
  else
    match user? with
    | none => ⟨.unauthorized "Invalid email or password", none, false⟩
    | some u =>
      if companyActive = false then
        ⟨.unauthorized "Storage company account is inactive. Please contact GUARDIAN support.",
          some u, false⟩
      else if u.clientBusinessId.isSome = true ∧ clientActive = false then
        ⟨.unauthorized "Client business account is inactive. Please contact your storage company.",
          some u, false⟩
      else if bcryptCompare req.password u.password = false then
        -- failed comparison: increment the counter, then lock when it reaches 5
        let u1 : UserDoc :=
          { u with
            failedLoginAttempts := u.failedLoginAttempts + 1
            lastFailedLogin := some now }
        if u1.failedLoginAttempts ≥ 5 then
          let u2 : UserDoc := { u1 with accountLockedUntil := some (now + 30 * 60 * 1000) }
          ⟨.unauthorized "Account locked due to too many failed login attempts. Try again in 30 minutes.",
            some u2, true⟩
        else
          ⟨.unauthorized "Invalid email or password", some u1, true⟩
      else
        -- the lock check runs only after the password has been verified
        match u.accountLockedUntil with
        | some lockUntil =>
          if now < lockUntil then
            ⟨.unauthorized ("Account is locked. Try again in " ++
                toString (lockMinutesRemaining lockUntil now) ++ " minutes."),
              some u, true⟩
          else loginIssueOrChallenge req u now
        | none => loginIssueOrChallenge req u now

/-- Remove the first occurrence of `x` from `l` — the
`indexOf`-then-`splice(index, 1)` sequence used on `backupCodes`. -/
def removeFirst (l : List String) (x : String) : List String :=
  match l with
  | [] => []
  | a :: t => if a = x then t else a :: removeFirst t x

/-- The backup-code fallback: when TOTP failed and `backupCodes.length > 0`,
hash the candidate and look it up; on a hit return the list with that first
occurrence spliced out. -/
def backupAttempt (hashFn : String → String) (codes : List String)
    (candidate : String) : Option (List String) :=
  if codes.length > 0 then
    let h := hashFn candidate
    if h ∈ codes then some (removeFirst codes h) else none
  else none

/-- Response of `complete2FALogin` (`POST /api/auth/login-2fa`). -/
inductive TwoFAResp
  | badRequest (error : String)
  | unauthorized (error : String)
  | notFound (error : String)
  | loggedIn (tokens : TokenPair) (usedBackupCode : Bool) (remainingBackupCodes : Nat)
deriving DecidableEq, Repr

/-- Outcome of one `complete2FALogin` request. -/
structure TwoFAOutcome where
  resp : TwoFAResp
  savedUser : Option UserDoc
deriving Repr

/-- Request body and metadata of a `complete2FALogin` call; `tempSession` is
`none` when the field is absent from the body. -/
structure TwoFAReq where
  userId : Nat
  token : String
  tempSession : Option TempSession
  ip : Option String
  userAgent : Option String
deriving Repr

/-- The `complete2FALogin` handler.  `totpValid secret token now` stands for
`speakeasy.totp.verify({ secret, token, window: 2 })` evaluated at time `now`;
`hashFn` is hex SHA-256.  `user?` is the `User.findById(userId)` result. -/
def complete2FALogin (totpValid : String → String → Millis → Bool)
    (hashFn : String → String) (req : TwoFAReq) (user? : Option UserDoc)
    (now : Millis) : TwoFAOutcome :=
  if req.token = "" ∨ req.tempSession = none then
    ⟨.badRequest "User ID, 2FA token, and temporary session are required", user?⟩
  else
    match req.tempSession with
    | none => ⟨.badRequest "User ID, 2FA token, and temporary session are required", user?⟩
    | some temp =>
      if now / 1000 ≥ temp.expSec then
        ⟨.unauthorized "Invalid or expired temporary session", user?⟩
      else if temp.userId ≠ req.userId ∨ temp.step ≠ "2fa_required" then
        ⟨.unauthorized "Invalid or expired temporary session", user?⟩
      else
        match user? with
        | none => ⟨.notFound "User not found or inactive", none⟩
        | some u =>
          if u.isActive = false then
            ⟨.notFound "User not found or inactive", some u⟩
          else if u.twoFactorAuth.enabled = false then
            ⟨.badRequest "2FA is not enabled for this user", some u⟩
          else
            let secret := u.twoFactorAuth.secret.getD ""
            let codesAfter? :=
              if totpValid secret req.token now then some u.twoFactorAuth.backupCodes
              else
                match backupAttempt hashFn u.twoFactorAuth.backupCodes req.token with
                | some codes => some codes
                | none => none
            match codesAfter? with
            | none => ⟨.badRequest "Invalid 2FA code or backup code", some u⟩
            | some codes =>
              let usedBackupCode := decide (¬ totpValid secret req.token now)
              let tokens := generateTokenPair u now
              let entry := newRefreshEntry tokens.refreshToken now req.userAgent req.ip
              let u1 : UserDoc :=
                { u with
                  lastLoginAt := some now
                  lastLoginIP := req.ip
                  twoFactorAuth :=
                    { u.twoFactorAuth with lastUsedAt := some now, backupCodes := codes }
                  refreshTokens := pushCapped u.refreshTokens entry }
              ⟨.loggedIn tokens usedBackupCode codes.length, some u1⟩

/-- Response of `verify2FAToken` (`POST /api/auth/2fa/verify`). -/
inductive Verify2FAResp
  | badRequest (error : String)
  | notFound (error : String)
  | verified (usedBackupCode : Bool) (remainingBackupCodes : Nat)
deriving DecidableEq, Repr

/-- Outcome of one `verify2FAToken` request. -/
structure Verify2FAOutcome where
  resp : Verify2FAResp
  savedUser : Option UserDoc
deriving Repr

/-- The `verify2FAToken` handler (two-factor controller).  On the backup-code
path the handler saves the spliced code list and then saves again after
setting `lastUsedAt`; the net persisted document is modelled. -/
def verify2FAToken (totpValid : String → String → Millis → Bool)
    (hashFn : String → String) (userId : Nat) (token : String)
    (user? : Option UserDoc) (now : Millis) : Verify2FAOutcome :=
  if token = "" then
    ⟨.badRequest "User ID and 6-digit token are required", user?⟩
  else
    match user? with
    | none => ⟨.notFound "User not found or inactive", none⟩
    | some u =>
      if u.isActive = false then
        ⟨.notFound "User not found or inactive", some u⟩
      else if u.twoFactorAuth.enabled = false then
        ⟨.badRequest "2FA is not enabled for this user", some u⟩
      else
        let secret := u.twoFactorAuth.secret.getD ""
        if totpValid secret token now then
          let u1 : UserDoc :=
            { u with twoFactorAuth := { u.twoFactorAuth with lastUsedAt := some now } }
          ⟨.verified false u.twoFactorAuth.backupCodes.length, some u1⟩
        else
          match backupAttempt hashFn u.twoFactorAuth.backupCodes token with
          | some codes =>
            let u1 : UserDoc :=
              { u with
                twoFactorAuth :=
                  { u.twoFactorAuth with lastUsedAt := some now, backupCodes := codes } }
            ⟨.verified true codes.length, some u1⟩
          | none => ⟨.badRequest "Invalid 2FA code or backup code", some u⟩

/-- Response of the `refreshToken` handler (`POST /api/auth/refresh`). -/
inductive RefreshResp
  | badRequest (error : String)
  | unauthorized (error : String)
  | refreshed (tokens : TokenPair)
deriving DecidableEq, Repr

/-- Outcome of one `refreshToken` request. -/
structure RefreshOutcome where
  resp : RefreshResp
  savedUser : Option UserDoc
deriving Repr

/-- The `refreshToken` handler.  `tok?` is the presented refresh token (`none`
when the body field is absent); `user?` is the `User.findById(decoded.userId)`
result. -/
def refreshTokenHandler (tok? : Option RefreshTok) (user? : Option UserDoc)
    (now : Millis) : RefreshOutcome :=
  match tok? with
  | none => ⟨.badRequest "Refresh token is required", user?⟩
  | some tok =>
    if now / 1000 ≥ tok.expSec then
      ⟨.unauthorized "Invalid or expired refresh token", user?⟩
    else
      match user? with
      | none => ⟨.unauthorized "User not found or inactive", none⟩
      | some u =>
        if u.isActive = false then
          ⟨.unauthorized "User not found or inactive", some u⟩
        else if (u.refreshTokens.any fun e => decide (e.token = tok) && decide (now < e.expiresAt)) = false then
          ⟨.unauthorized "Refresh token not found or expired", some u⟩
        else
          let tokens := generateTokenPair u now
          let kept := u.refreshTokens.filter fun e => decide (e.token ≠ tok)
          let entry : StoredRefreshToken :=
            ⟨tokens.refreshToken, now, now + 7 * 24 * 60 * 60 * 1000, none, none⟩
          -- rotation appends without the 5-entry cap applied elsewhere
          ⟨.refreshed tokens, some { u with refreshTokens := kept ++ [entry] }⟩

/-- One hexadecimal digit, uppercase (`toString("hex").toUpperCase()`). -/
def hexDigitChar (n : Nat) : Char :=
  if n < 10 then Char.ofNat (48 + n) else Char.ofNat (55 + n)

/-- The 8-character uppercase-hex rendering of a 32-bit value
(`crypto.randomBytes(4).toString("hex").toUpperCase()`). -/
def toUpperHex8 (n : Nat) : String :=
  String.mk ((List.range 8).map fun i => hexDigitChar (n / 16 ^ (7 - i) % 16))

/-- The characters that can appear in a backup code. -/
def hexUpperChars : List Char := "0123456789ABCDEF".data

/-- `generateBackupCodes(count)`: `count` independent draws of 4 random bytes,
each rendered as 8 uppercase-hex characters.  `rand i` is the value of the
`i`-th `crypto.randomBytes(4)` draw; nothing deduplicates the draws. -/
def generateBackupCodes (rand : Nat → Nat) (count : Nat) : List String :=
  (List.range count).map fun i => toUpperHex8 (rand i % 2 ^ 32)

/-- Response of `verifyAndEnable2FA` (`POST /api/auth/2fa/verify-setup`). -/
inductive EnableResp
  | failure (status : Nat) (error : String)
  | enabled (backupCodes : List String)
deriving DecidableEq, Repr

/-- Outcome of one `verifyAndEnable2FA` request. -/
structure EnableOutcome where
  resp : EnableResp
  savedUser : Option UserDoc
deriving Repr

/-- The `verifyAndEnable2FA` handler: verify the setup TOTP code, then enable
2FA, store the SHA-256 digests of 10 fresh backup codes, and clear all
refresh tokens, returning the plaintext codes once. -/
def verifyAndEnable2FA (totpValid : String → String → Millis → Bool)
    (hashFn : String → String) (rand : Nat → Nat) (token : String)
    (user? : Option UserDoc) (now : Millis) : EnableOutcome :=
  if token = "" then
    ⟨.failure 400 "6-digit verification token is required", user?⟩
  else
    match user? with
    | none => ⟨.failure 404 "User not found", none⟩
    | some u =>
      match u.twoFactorAuth.secret with
      | none => ⟨.failure 400 "No 2FA setup found. Generate setup first.", some u⟩
      | some secret =>
        if u.twoFactorAuth.enabled then
          ⟨.failure 400 "2FA is already enabled", some u⟩
        else if totpValid secret token now = false then
          ⟨.failure 400 "Invalid verification code. Please try again.", some u⟩
        else
          let backupCodes := generateBackupCodes rand 10
          let u1 : UserDoc :=
            { u with
              twoFactorAuth :=
                { enabled := true
                  secret := some secret
                  backupCodes := backupCodes.map hashFn
                  lastUsedAt := some now }
              refreshTokens := [] }
          ⟨.enabled backupCodes, some u1⟩

/-- The normalized principal the authorization middleware attaches to
`req.user` (the fields `requirePermission` reads). -/
structure Principal where
  role : String
  permissions : Permissions
deriving DecidableEq, Repr

/-- Result of a middleware guard: call `next()`, 401, or 403 naming the
missing permission. -/
inductive GuardResult
  | pass
  | unauthenticated
  | forbidden (category action : String)
deriving DecidableEq, Repr

/-- The `requirePermission(category, action)` middleware guard. -/
def requirePermission (category action : String) (user? : Option Principal) :
    GuardResult :=
  match user? with
  | none => .unauthenticated
  | some u =>
    -- "Storage admins have all permissions within their scope"
    if u.role = "storage-admin" then .pass
    else if permGet u.permissions category action then .pass
    else .forbidden category action

/-- `userSchema.methods.hasPermission(category, action)`. -/
def hasPermission (u : UserDoc) (category action : String) : Bool :=
  if u.userType = "storage-admin" then decide (category ≠ "clientOperations")
  else permGet u.permissions category action

/-- A typed MongoDB index key component. -/
inductive FieldValue
  | natVal (v : Nat)
  | strVal (v : String)
  | boolVal (v : Bool)
  | optNatVal (v : Option Nat)
  | missing
deriving DecidableEq, Repr

/-- The value a user document contributes to an index on field `f`. -/
def fieldVal (u : UserDoc) (f : String) : FieldValue :=
  if f = "storageCompanyId" then .natVal u.storageCompanyId
  else if f = "email" then .strVal u.email
  else if f = "userType" then .strVal u.userType
  else if f = "isActive" then .boolVal u.isActive
  else if f = "clientBusinessId" then .optNatVal u.clientBusinessId
  else .missing

/-- One `userSchema.index(...)` declaration. -/
structure IndexSpec where
  fields : List String
  unique : Bool
deriving DecidableEq, Repr

/-- The index declarations of `userSchema` (`src/server/models/User.js`).
Only the compound `{ storageCompanyId, email }` index is unique; the plain
`{ email }` index is not. -/
def userSchemaIndexes : List IndexSpec :=
  [ ⟨["storageCompanyId", "email"], true⟩
  , ⟨["storageCompanyId", "userType"], false⟩
  , ⟨["storageCompanyId", "isActive"], false⟩
  , ⟨["clientBusinessId", "userType"], false⟩
  , ⟨["email"], false⟩
  , ⟨["userType", "isActive"], false⟩
  , ⟨["passwordResetToken"], false⟩
  , ⟨["emailVerificationToken"], false⟩ ]

/-- The key tuple document `u` contributes to index `ix`. -/
def indexKey (ix : IndexSpec) (u : UserDoc) : List FieldValue :=
  ix.fields.map (fieldVal u)

/-- All elements of `l` pairwise distinct (Boolean). -/
def pairwiseDistinct (l : List (List FieldValue)) : Bool :=
  match l with
  | [] => true
  | x :: t => (t.all fun y => decide (x ≠ y)) && pairwiseDistinct t

/-- A collection of user documents is admissible for the store exactly when
every unique index of `userSchema` sees pairwise-distinct key tuples. -/
def storeAcceptsCollection (coll : List UserDoc) : Bool :=
  userSchemaIndexes.all fun ix =>
    !ix.unique || pairwiseDistinct (coll.map (indexKey ix))

/-- ASCII lower-casing of one character, as `toLowerCase()` acts on the
ASCII range relevant for emails. -/
def lowerChar (c : Char) : Char :=
  if 65 ≤ c.toNat ∧ c.toNat ≤ 90 then Char.ofNat (c.toNat + 32) else c

/-- `email.toLowerCase()` over ASCII strings. -/
def lowerAscii (s : String) : String := String.mk (s.data.map lowerChar)

/-- The documents matched by the login lookup
`User.findOne({ email: email.toLowerCase(), isActive: true })`. -/
def findActiveByEmail (coll : List UserDoc) (email : String) : List UserDoc :=
  coll.filter fun u => decide (u.email = lowerAscii email) && u.isActive

/-- The operations of the repository that mutate a `refreshTokens` list:
the push in `login` / `complete2FALogin`, `userSchema.methods.addRefreshToken`,
and the rotation step of the `refreshToken` handler (which mutates only when
the presented token is found unexpired in the list). -/
inductive RefreshListOp
  | loginPush (e : StoredRefreshToken)
  | addToken (e : StoredRefreshToken)
  | rotate (old : RefreshTok) (e : StoredRefreshToken) (now : Millis)

/-- Apply one mutation to a `refreshTokens` list. -/
def applyRefreshListOp (l : List StoredRefreshToken) :
    RefreshListOp → List StoredRefreshToken
  | .loginPush e => pushCapped l e
  | .addToken e => pushCapped l e
  | .rotate old e now =>
    if l.any fun x => decide (x.token = old) && decide (now < x.expiresAt) then
      (l.filter fun x => decide (x.token ≠ old)) ++ [e]
    else l

/-! ### Concrete fixtures used by witnesses and counterexamples -/

/-- A neutral active user record. -/
def baseUser : UserDoc :=
  { id := 7
    userType := "storage-manager"
    storageCompanyId := 1
    clientBusinessId := none
    email := "a@x.com"
    password := "pw"
    permissions := []
    twoFactorAuth := ⟨false, none, [], none⟩
    lastLoginAt := none
    lastLoginIP := none
    lastFailedLogin := none
    failedLoginAttempts := 0
    accountLockedUntil := none
    refreshTokens := []
    isActive := true
    isEmailVerified := true }

/-- A concrete instantiation of `bcrypt.compare`: the candidate matches the
stored value exactly when the strings coincide. -/
def eqCompare : String → String → Bool := fun pw h => pw == h

/-- `TwoFAResp.loggedIn` recognizer. -/
def isLoggedInResp : TwoFAResp → Bool
  | .loggedIn _ _ _ => true
  | _ => false

/-- `RefreshResp.refreshed` recognizer. -/
def isRefreshedResp : RefreshResp → Bool
  | .refreshed _ => true
  | _ => false

/-- A concrete stored refresh-token entry issued at second `i`. -/
def mkEntry (i : Nat) : StoredRefreshToken :=
  ⟨⟨7, i, i + refreshExpireSec⟩, i * 1000, i * 1000 + 7 * 24 * 60 * 60 * 1000, none, none⟩

/-- A full list of five refresh-token entries, oldest first. -/
def c6List : List StoredRefreshToken :=
  [mkEntry 1, mkEntry 2, mkEntry 3, mkEntry 4, mkEntry 5]

/-- A sixth entry whose insertion must evict `mkEntry 1`. -/
def c6Entry : StoredRefreshToken := mkEntry 6

/-- A storage-admin principal whose explicit permission map denies every
client operation. -/
def adminPrincipal : Principal :=
  ⟨"storage-admin", [("clientOperations", [("manageUsers", false)])]⟩

/-- A storage-admin user document. -/
def adminUserDoc : UserDoc := { baseUser with userType := "storage-admin" }

/-- A user locked until epoch millisecond 2000000. -/
def c1User : UserDoc :=
  { baseUser with accountLockedUntil := some 2000000, failedLoginAttempts := 1 }

/-- A concrete instantiation of `speakeasy.totp.verify`: the code `123456` is
valid for the secret `S` at every instant (TOTP codes stay valid across their
window and are not marked used). -/
def c2Totp : String → String → Millis → Bool :=
  fun secret token _ => secret == "S" && token == "123456"

/-- A concrete instantiation of hex SHA-256: prepend `H`. -/
def prefixHash : String → String := fun s => "H" ++ s

/-- A 2FA-enabled user with secret `S` and no backup codes. -/
def c2User : UserDoc :=
  { baseUser with twoFactorAuth := ⟨true, some "S", [], none⟩ }

/-- The pending-2FA session minted for `c2User` at time 0. -/
def c2Temp : TempSession := mkTempSession 7 0

/-- A 2FA-completion request presenting `c2Temp` and the code `123456`. -/
def c2Req : TwoFAReq := ⟨7, "123456", some c2Temp, none, none⟩

/-- A 2FA-enabled user with failed attempts on record. -/
def c4User : UserDoc :=
  { baseUser with
    twoFactorAuth := ⟨true, some "SECRET", [], none⟩
    failedLoginAttempts := 3 }

/-- A refresh token for user 7 issued at second 5. -/
def c5Tok : RefreshTok := ⟨7, 5, 5 + refreshExpireSec⟩

/-- A user holding `c5Tok` in their refresh-token list. -/
def c5User : UserDoc :=
  { baseUser with
    refreshTokens := [⟨c5Tok, 5000, 5000 + 7 * 24 * 60 * 60 * 1000, none, none⟩] }

/-- A TOTP verifier that rejects everything (backup-code-only scenario). -/
def totpNever : String → String → Millis → Bool := fun _ _ _ => false

/-- A 2FA-enabled user holding the hash of the single backup code `code1`. -/
def c7User : UserDoc :=
  { baseUser with twoFactorAuth := ⟨true, some "S", [prefixHash "code1"], none⟩ }

/-- A user with a pending (not yet enabled) 2FA secret. -/
def c8User : UserDoc :=
  { baseUser with twoFactorAuth := ⟨false, some "S", [], none⟩ }

/-- A TOTP verifier that accepts everything (setup-verification scenario). -/
def totpAlways : String → String → Millis → Bool := fun _ _ _ => true

/-- An active user of tenant 1 with email `dup@x.com`. -/
def c9UserA : UserDoc :=
  { baseUser with id := 1, storageCompanyId := 1, email := "dup@x.com" }

/-- An active user of tenant 2 with the same email `dup@x.com`. -/
def c9UserB : UserDoc :=
  { baseUser with id := 2, storageCompanyId := 2, email := "dup@x.com" }

/-- An active user of tenant 1 with a different email. -/
def c9UserC : UserDoc :=
  { baseUser with id := 3, storageCompanyId := 1, email := "other@x.com" }

/-- An already-locked user whose failed-attempt counter is past the
threshold. -/
def c10User : UserDoc :=
  { baseUser with failedLoginAttempts := 6, accountLockedUntil := some 500000 }

/-! ### Auxiliary list lemmas -/

theorem pushCapped_length_le (l : List StoredRefreshToken) (e : StoredRefreshToken) :
    (pushCapped l e).length ≤ 5 := by
  simp only [pushCapped]
  split
  · simp only [List.length_drop]
    omega
  · rename_i h
    omega

theorem length_filter_lt_of_mem_not {α : Type} (p : α → Bool) :
    ∀ (l : List α) (x : α), x ∈ l → p x = false → (l.filter p).length < l.length := by
  intro l
  induction l with
  | nil => intro x hx; cases hx
  | cons a t ih =>
    intro x hx hpx
    rcases List.mem_cons.mp hx with h | h
    · subst h
      have := List.length_filter_le p t
      simp [List.filter_cons, hpx]
      omega
    · have := ih x h hpx
      by_cases hpa : p a = true
      · simp [List.filter_cons, hpa]
        omega
      · simp [List.filter_cons, hpa]
        omega

theorem applyRefreshListOp_length_le (l : List StoredRefreshToken)
    (op : RefreshListOp) (h : l.length ≤ 5) :
    (applyRefreshListOp l op).length ≤ 5 := by
  cases op with
  | loginPush e => exact pushCapped_length_le l e
  | addToken e => exact pushCapped_length_le l e
  | rotate old e now =>
    simp only [applyRefreshListOp]
    split
    · rename_i hany
      obtain ⟨x, hx, hpx⟩ := List.any_eq_true.mp hany
      simp only [Bool.and_eq_true, decide_eq_true_eq] at hpx
      have hx1 : x.token = old := hpx.1
      have hfalse : decide (x.token ≠ old) = false := by
        simp [hx1]
      have := length_filter_lt_of_mem_not (fun x => decide (x.token ≠ old)) l x hx hfalse
      simp only [List.length_append, List.length_cons, List.length_nil]
      omega
    · exact h

theorem foldl_applyRefreshListOp_length_le (ops : List RefreshListOp) :
    ∀ (l : List StoredRefreshToken), l.length ≤ 5 →
      (ops.foldl applyRefreshListOp l).length ≤ 5 := by
  induction ops with
  | nil => intro l h; simpa using h
  | cons op rest ih =>
    intro l h
    simpa using ih (applyRefreshListOp l op) (applyRefreshListOp_length_le l op h)

theorem removeFirst_length (l : List String) (x : String) (hx : x ∈ l) :
    (removeFirst l x).length = l.length - 1 := by
  induction l with
  | nil => cases hx
  | cons a t ih =>
    simp only [removeFirst]
    split
    · simp
    · rename_i hne
      have hxt : x ∈ t := by
        rcases List.mem_cons.mp hx with h | h
        · exact absurd h.symm hne
        · exact h
      have := List.length_pos.mpr (List.ne_nil_of_mem hxt)
      simp only [List.length_cons, ih hxt]
      omega

theorem count_removeFirst (l : List String) (x : String) :
    (removeFirst l x).count x = l.count x - 1 := by
  induction l with
  | nil => simp [removeFirst]
  | cons a t ih =>
    simp only [removeFirst]
    split
    · rename_i h
      subst h
      simp [List.count_cons_self]
    · rename_i hne
      have hax : (a == x) = false := by
        simp only [beq_eq_false_iff_ne, ne_eq]
        exact hne
      have hxa : (x == a) = false := by
        simp only [beq_eq_false_iff_ne, ne_eq]
        exact fun h => hne h.symm
      simp [List.count_cons, hax, hxa, ih]

theorem not_mem_removeFirst_of_count_le_one (l : List String) (x : String)
    (h : l.count x ≤ 1) : x ∉ removeFirst l x := by
  intro hmem
  have := count_removeFirst l x
  have hpos := List.count_pos_iff.mpr hmem
  omega

theorem rotated_any_eq_false (l : List StoredRefreshToken) (tok : RefreshTok)
    (e : StoredRefreshToken) (he : e.token ≠ tok) (now2 : Millis) :
    (((l.filter fun x => decide (x.token ≠ tok)) ++ [e]).any
      fun x => decide (x.token = tok) && decide (now2 < x.expiresAt)) = false := by
  rw [List.any_eq_false]
  intro x hx
  rcases List.mem_append.mp hx with hxf | hxe
  · obtain ⟨-, hkeep⟩ := List.mem_filter.mp hxf
    have hne2 : x.token ≠ tok := of_decide_eq_true hkeep
    simp [hne2]
  · have hx2 : x = e := by simpa using hxe
    subst hx2
    simp [he]

theorem backupAttempt_eq_some (hashFn : String → String) (codes : List String)
    (code : String) (hmem : hashFn code ∈ codes) :
    backupAttempt hashFn codes code = some (removeFirst codes (hashFn code)) := by
  have hpos : 0 < codes.length := List.length_pos.mpr (List.ne_nil_of_mem hmem)
  simp [backupAttempt, hmem, hpos]

theorem backupAttempt_eq_none (hashFn : String → String) (codes : List String)
    (code : String) (h : hashFn code ∉ codes) :
    backupAttempt hashFn codes code = none := by
  simp [backupAttempt, h]

theorem hexDigitChar_mem : ∀ m, m < 16 → hexDigitChar m ∈ hexUpperChars := by
  decide

theorem pairwiseDistinct_pairwise (f : UserDoc → List FieldValue) :
    ∀ (l : List UserDoc), pairwiseDistinct (l.map f) = true →
      List.Pairwise (fun a b => f a ≠ f b) l := by
  intro l
  induction l with
  | nil => intro _; exact List.Pairwise.nil
  | cons a t ih =>
    intro h
    simp only [List.map_cons, pairwiseDistinct, Bool.and_eq_true] at h
    obtain ⟨hall, hrest⟩ := h
    refine List.Pairwise.cons ?_ (ih hrest)
    intro b hb
    have hbm := List.all_eq_true.mp hall (f b) (List.mem_map_of_mem f hb)
    exact of_decide_eq_true hbm

theorem refreshTokenHandler_notfound (tok : RefreshTok) (u : UserDoc) (now : Millis)
    (hnl : ¬ now / 1000 ≥ tok.expSec) (hactive : u.isActive = true)
    (hany : (u.refreshTokens.any fun e =>
      decide (e.token = tok) && decide (now < e.expiresAt)) = false) :
    (refreshTokenHandler (some tok) (some u) now).resp =
      RefreshResp.unauthorized "Refresh token not found or expired" := by
  simp only [refreshTokenHandler]
  rw [if_neg hnl]
  have h2 : ¬ u.isActive = false := by simp [hactive]
  rw [if_neg h2, hany]
  simp

/-! ### Claim theorems -/

/-- C6: over every sequence of the operations that mutate a `refreshTokens`
list (login push, `addRefreshToken`, refresh rotation) starting from the empty
list, the list never exceeds 5 entries; and when a capped push starts from a
full list of 5 the oldest entry (the head, in insertion order) is evicted. -/
theorem c6_refresh_list_bounded :
    (∀ ops : List RefreshListOp, (ops.foldl applyRefreshListOp []).length ≤ 5) ∧
    (∀ (l : List StoredRefreshToken) (e : StoredRefreshToken), l.length = 5 →
      pushCapped l e = l.drop 1 ++ [e]) := by
  constructor
  · intro ops
    exact foldl_applyRefreshListOp_length_le ops [] (by simp)
  · intro l e hl
    cases l with
    | nil => simp at hl
    | cons a t =>
      simp only [pushCapped, List.length_append, List.length_cons, List.length_nil]
      have h6 : (a :: t).length + 1 = 6 := by omega
      simp only [List.length_cons] at h6
      rw [if_pos (by omega)]
      have : t.length + 1 + 1 - 5 = 1 := by
        simp only [List.length_cons] at hl
        omega
      simp [this]

/-- C6 witness: a concrete full list of five entries evicts its oldest entry
on the next capped push. -/
theorem c6_refresh_list_bounded_witness :
    c6List.length = 5 ∧ pushCapped c6List c6Entry = c6List.drop 1 ++ [c6Entry] :=
  ⟨by decide, c6_refresh_list_bounded.2 c6List c6Entry (by decide)⟩

/-- C3 counterexample: `requirePermission("clientOperations", "manageUsers")`
lets a storage-admin principal pass even though the principal's own permission
map denies that very permission — the storage-admin bypass is NOT restricted
to non-client categories, so a storage-admin is not subject to the
per-permission check for `clientOperations`. -/
theorem c3_storage_admin_client_category_counterexample :
    requirePermission "clientOperations" "manageUsers" (some adminPrincipal) =
      GuardResult.pass ∧
    permGet adminPrincipal.permissions "clientOperations" "manageUsers" = false := by
  constructor
  · rfl
  · rfl

/-- C3 amended: the `requirePermission` guard lets a storage-admin principal
pass implicitly for EVERY capability category, `clientOperations` included;
the client-category carve-out lives only in `User.hasPermission`, which denies
a storage-admin every `clientOperations` action outright (without consulting
the per-permission map). -/
theorem c3_admin_bypass_amended :
    (∀ (p : Principal) (category action : String), p.role = "storage-admin" →
      requirePermission category action (some p) = GuardResult.pass) ∧
    (∀ (u : UserDoc) (action : String), u.userType = "storage-admin" →
      hasPermission u "clientOperations" action = false) := by
  constructor
  · intro p category action h
    simp [requirePermission, h]
  · intro u action h
    simp [hasPermission, h]

/-- C3 witness: the amended claim at a concrete storage-admin principal and
user document. -/
theorem c3_admin_bypass_amended_witness :
    adminPrincipal.role = "storage-admin" ∧
    requirePermission "storageOperations" "manageBilling" (some adminPrincipal) =
      GuardResult.pass ∧
    hasPermission adminUserDoc "clientOperations" "manageUsers" = false :=
  ⟨rfl, c3_admin_bypass_amended.1 adminPrincipal "storageOperations" "manageBilling" rfl,
    c3_admin_bypass_amended.2 adminUserDoc "manageUsers" rfl⟩

/-- C4 (code bug): a 2FA-enabled user with 3 failed attempts on record logs in
with the correct password; `login` answers with the 2FA challenge but returns
without calling `user.save()`, so the persisted record still carries
`failedLoginAttempts = 3` — the in-memory reset of step 4 is never stored,
contradicting the spec's "On password success: reset `failedLoginAttempts` to
0, clear `lockedUntil`". -/
theorem c4_twofa_reset_not_persisted :
    (login eqCompare ⟨"a@x.com", "pw", none, none⟩ (some c4User) true true 1000).resp =
      LoginResp.twoFactorChallenge 7 "a@x.com" (mkTempSession 7 1000) ∧
    (login eqCompare ⟨"a@x.com", "pw", none, none⟩ (some c4User) true true 1000).savedUser =
      some c4User ∧
    c4User.failedLoginAttempts = 3 := by
  refine ⟨rfl, rfl, rfl⟩

/-- C1 counterexample: a login with a wrong password against an account whose
`accountLockedUntil` (2000000) lies beyond `now` (1000) still consults the
stored password (`bcrypt.compare` runs) and still increments the
failed-attempt counter — the lock check only runs after password
verification, so the claim's "the stored password is never consulted and the
counter is not modified" fails. -/
theorem c1_locked_wrong_password_counterexample :
    c1User.accountLockedUntil = some 2000000 ∧ (1000 : Millis) < 2000000 ∧
    (login eqCompare ⟨"a@x.com", "wrong", none, none⟩ (some c1User) true true 1000).passwordCompared =
      true ∧
    (login eqCompare ⟨"a@x.com", "wrong", none, none⟩ (some c1User) true true 1000).savedUser.map
      (fun u => u.failedLoginAttempts) = some 2 := by
  refine ⟨rfl, by decide, rfl, rfl⟩

/-- C1 amended: for a login on an account whose `accountLockedUntil` lies in
the future, the stored password IS consulted first; only when the password
verifies is the request rejected with the remaining-minutes message (with no
state change persisted), while a failed comparison increments the
failed-attempt counter as on any other failed login. -/
theorem c1_locked_account_amended (bc : String → String → Bool) (req : LoginReq)
    (u : UserDoc) (clientActive : Bool) (now lockUntil : Millis)
    (hmail : req.email ≠ "") (hpw : req.password ≠ "")
    (hclient : ¬(u.clientBusinessId.isSome = true ∧ clientActive = false))
    (hlock : u.accountLockedUntil = some lockUntil) (hfut : now < lockUntil) :
    (login bc req (some u) true clientActive now).passwordCompared = true ∧
    (bc req.password u.password = true →
      (login bc req (some u) true clientActive now).resp =
        LoginResp.unauthorized ("Account is locked. Try again in " ++
          toString (lockMinutesRemaining lockUntil now) ++ " minutes.") ∧
      (login bc req (some u) true clientActive now).savedUser = some u) ∧
    (bc req.password u.password = false →
      (login bc req (some u) true clientActive now).savedUser.map
        (fun v => v.failedLoginAttempts) = some (u.failedLoginAttempts + 1)) := by
  have hcond : ¬(req.email = "" ∨ req.password = "") := by
    simp [hmail, hpw]
  by_cases hbc : bc req.password u.password = true
  · refine ⟨?_, fun _ => ⟨?_, ?_⟩, fun hfalse => ?_⟩
    · simp [login, hcond, hclient, hbc, hlock, hfut]
    · simp [login, hcond, hclient, hbc, hlock, hfut]
    · simp [login, hcond, hclient, hbc, hlock, hfut]
    · rw [hfalse] at hbc
      simp at hbc
  · have hbcf : bc req.password u.password = false := by
      simpa using hbc
    refine ⟨?_, fun htrue => ?_, fun _ => ?_⟩
    · simp [login, hcond, hclient, hbcf]
      split <;> rfl
    · rw [htrue] at hbcf
      simp at hbcf
    · simp [login, hcond, hclient, hbcf]
      split
      · exact ⟨_, rfl, rfl⟩
      · exact ⟨_, rfl, rfl⟩

/-- C1 witness: the amended claim at a concrete locked account and correct
password. -/
theorem c1_locked_account_amended_witness :
    c1User.accountLockedUntil = some 2000000 ∧
    (login eqCompare ⟨"a@x.com", "pw", none, none⟩ (some c1User) true true 1000).resp =
      LoginResp.unauthorized ("Account is locked. Try again in " ++
        toString (lockMinutesRemaining 2000000 1000) ++ " minutes.") :=
  ⟨rfl,
    ((c1_locked_account_amended eqCompare ⟨"a@x.com", "pw", none, none⟩ c1User true
      1000 2000000 (by decide) (by decide) (by decide) rfl (by decide)).2.1 rfl).1⟩

/-- C10: whenever the password comparison fails (after the lookup and
company/client checks pass), `login` increments `failedLoginAttempts` and, as
soon as the incremented counter reaches 5, overwrites `accountLockedUntil`
with `now + 30` minutes — regardless of whether the account is already
locked, so each further wrong-password attempt during a lockout extends the
lock by a fresh 30 minutes. -/
theorem c10_failed_attempt_lock_extension (bc : String → String → Bool)
    (req : LoginReq) (u : UserDoc) (clientActive : Bool) (now : Millis)
    (hmail : req.email ≠ "") (hpw : req.password ≠ "")
    (hclient : ¬(u.clientBusinessId.isSome = true ∧ clientActive = false))
    (hbc : bc req.password u.password = false) :
    (login bc req (some u) true clientActive now).savedUser.map
      (fun v => v.failedLoginAttempts) = some (u.failedLoginAttempts + 1) ∧
    (5 ≤ u.failedLoginAttempts + 1 →
      (login bc req (some u) true clientActive now).savedUser.map
        (fun v => v.accountLockedUntil) = some (some (now + 30 * 60 * 1000))) ∧
    (u.failedLoginAttempts + 1 < 5 →
      (login bc req (some u) true clientActive now).savedUser.map
        (fun v => v.accountLockedUntil) = some u.accountLockedUntil) := by
  have hcond : ¬(req.email = "" ∨ req.password = "") := by
    simp [hmail, hpw]
  refine ⟨?_, fun hge => ?_, fun hlt => ?_⟩
  · simp [login, hcond, hclient, hbc]
    split
    · exact ⟨_, rfl, rfl⟩
    · exact ⟨_, rfl, rfl⟩
  · simp [login, hcond, hclient, hbc]
    split
    · exact ⟨_, rfl, rfl⟩
    · rename_i h
      exact absurd (by omega : 4 ≤ u.failedLoginAttempts) h
  · simp [login, hcond, hclient, hbc]
    split
    · rename_i h
      exact absurd h (by omega)
    · exact ⟨_, rfl, rfl⟩

/-- C10 witness: a wrong-password attempt against an ALREADY locked account
(locked until 500000, counter at 6) at `now = 1000` re-locks the account
until `1000 + 30` minutes. -/
theorem c10_failed_attempt_lock_extension_witness :
    c10User.accountLockedUntil = some 500000 ∧
    (login eqCompare ⟨"a@x.com", "wrong", none, none⟩ (some c10User) true true 1000).savedUser.map
      (fun v => v.accountLockedUntil) = some (some (1000 + 30 * 60 * 1000)) :=
  ⟨rfl,
    (c10_failed_attempt_lock_extension eqCompare ⟨"a@x.com", "wrong", none, none⟩
      c10User true 1000 (by decide) (by decide) (by decide) (by decide)).2.1 (by decide)⟩

/-- C2 counterexample: `complete2FALogin` verifies the temporary session
token but never invalidates it.  With a 2FA-enabled user and a code that is
valid at both instants, a first completion at `now = 1000` succeeds and a
second completion presenting the SAME pending token at `now = 30000` (well
inside the 10-minute window) succeeds again — the pending token is not
consumed exactly once. -/
theorem c2_pending_token_replay_counterexample :
    isLoggedInResp (complete2FALogin c2Totp prefixHash c2Req (some c2User) 1000).resp = true ∧
    isLoggedInResp (complete2FALogin c2Totp prefixHash c2Req
      ((complete2FALogin c2Totp prefixHash c2Req (some c2User) 1000).savedUser) 30000).resp =
      true := by
  decide

/-- C2 amended: the pending-2FA session token is stateless and is never
consumed: after any successful TOTP-path completion, the same pending token
can be presented again and the completion succeeds once more, at any time
before the token's own 10-minute expiry, with any code that is then valid. -/
theorem c2_pending_token_not_consumed (totpValid : String → String → Millis → Bool)
    (hashFn : String → String) (req1 req2 : TwoFAReq) (u : UserDoc)
    (temp : TempSession) (now1 now2 : Millis)
    (ht1 : req1.tempSession = some temp) (ht2 : req2.tempSession = some temp)
    (hid1 : temp.userId = req1.userId) (hid2 : temp.userId = req2.userId)
    (hstep : temp.step = "2fa_required")
    (hc1 : req1.token ≠ "") (hc2 : req2.token ≠ "")
    (hexp1 : now1 / 1000 < temp.expSec) (hexp2 : now2 / 1000 < temp.expSec)
    (hactive : u.isActive = true) (hen : u.twoFactorAuth.enabled = true)
    (hv1 : totpValid (u.twoFactorAuth.secret.getD "") req1.token now1 = true)
    (hv2 : totpValid (u.twoFactorAuth.secret.getD "") req2.token now2 = true) :
    isLoggedInResp (complete2FALogin totpValid hashFn req1 (some u) now1).resp = true ∧
    isLoggedInResp (complete2FALogin totpValid hashFn req2
      ((complete2FALogin totpValid hashFn req1 (some u) now1).savedUser) now2).resp = true := by
  have hnl1 : ¬ now1 / 1000 ≥ temp.expSec := Nat.not_le.mpr hexp1
  have hnl2 : ¬ now2 / 1000 ≥ temp.expSec := Nat.not_le.mpr hexp2
  constructor
  · simp [complete2FALogin, hc1, ht1, hnl1, ← hid1, hstep, hactive, hen, hv1, isLoggedInResp]
  · simp [complete2FALogin, hc1, ht1, hnl1, ← hid1, hstep, hactive, hen, hv1,
      hc2, ht2, hnl2, ← hid2, hv2, isLoggedInResp]

/-- C2 witness: the amended claim at a concrete user, pending token, and pair
of instants inside the 10-minute window. -/
theorem c2_pending_token_not_consumed_witness :
    c2Req.tempSession = some c2Temp ∧
    isLoggedInResp (complete2FALogin c2Totp prefixHash c2Req
      ((complete2FALogin c2Totp prefixHash c2Req (some c2User) 40000).savedUser) 50000).resp =
      true :=
  ⟨rfl,
    (c2_pending_token_not_consumed c2Totp prefixHash c2Req c2Req c2User c2Temp 40000 50000
      rfl rfl rfl rfl rfl (by decide) (by decide) (by decide) (by decide) rfl rfl
      (by decide) (by decide)).2⟩

/-- C5 counterexample: when rotation happens within the same wall-clock
second as the original issuance, `jwt.sign` reproduces the identical refresh
token (same `{ userId, iat, exp }` claims), so the "new" entry equals the old
one and a replay of the original refresh token AFTER a successful refresh
succeeds again. -/
theorem c5_same_second_rotation_counterexample :
    isRefreshedResp (refreshTokenHandler (some c5Tok) (some c5User) 5400).resp = true ∧
    isRefreshedResp (refreshTokenHandler (some c5Tok)
      ((refreshTokenHandler (some c5Tok) (some c5User) 5400).savedUser) 6400).resp = true := by
  decide

/-- C5 amended: a refresh with a valid, unexpired token that is still
recorded on the user succeeds, and — provided the rotation happens at a
different wall-clock second than the original issuance, so that the freshly
minted token differs from the old one — every replay of the original token
before its expiry is rejected. -/
theorem c5_refresh_rotation_amended (u : UserDoc) (tok : RefreshTok)
    (now1 now2 : Millis) (hactive : u.isActive = true)
    (hexp1 : now1 / 1000 < tok.expSec) (hexp2 : now2 / 1000 < tok.expSec)
    (hmem : (u.refreshTokens.any fun e =>
      decide (e.token = tok) && decide (now1 < e.expiresAt)) = true)
    (hfresh : now1 / 1000 ≠ tok.iatSec) :
    (refreshTokenHandler (some tok) (some u) now1).resp =
      RefreshResp.refreshed (generateTokenPair u now1) ∧
    (refreshTokenHandler (some tok)
      ((refreshTokenHandler (some tok) (some u) now1).savedUser) now2).resp =
      RefreshResp.unauthorized "Refresh token not found or expired" := by
  have hnl1 : ¬ now1 / 1000 ≥ tok.expSec := Nat.not_le.mpr hexp1
  have hnl2 : ¬ now2 / 1000 ≥ tok.expSec := Nat.not_le.mpr hexp2
  have hne : mkRefreshTok u.id now1 ≠ tok := by
    intro h
    exact hfresh (by simpa [mkRefreshTok] using congrArg RefreshTok.iatSec h)
  constructor
  · simp [refreshTokenHandler, hnl1, hactive, hmem]
  · have h1 : (refreshTokenHandler (some tok) (some u) now1).savedUser =
        some { u with refreshTokens :=
          (u.refreshTokens.filter fun e => decide (e.token ≠ tok)) ++
          [⟨mkRefreshTok u.id now1, now1, now1 + 7 * 24 * 60 * 60 * 1000, none, none⟩] } := by
      simp [refreshTokenHandler, hnl1, hactive, hmem, generateTokenPair]
    rw [h1]
    exact refreshTokenHandler_notfound tok _ now2 hnl2 hactive
      (rotated_any_eq_false u.refreshTokens tok
        ⟨mkRefreshTok u.id now1, now1, now1 + 7 * 24 * 60 * 60 * 1000, none, none⟩ hne now2)

/-- C5 witness: the amended claim at a concrete user and token, with the
rotation five wall-clock seconds after issuance. -/
theorem c5_refresh_rotation_amended_witness :
    (10500 : Millis) / 1000 ≠ c5Tok.iatSec ∧
    (refreshTokenHandler (some c5Tok)
      ((refreshTokenHandler (some c5Tok) (some c5User) 10500).savedUser) 20000).resp =
      RefreshResp.unauthorized "Refresh token not found or expired" :=
  ⟨by decide,
    (c5_refresh_rotation_amended c5User c5Tok 10500 20000 rfl (by decide) (by decide)
      (by decide) (by decide)).2⟩

/-- C7: for a 2FA-enabled active user, presenting a backup code (a code that
fails TOTP and whose hash occurs exactly once in the stored list) succeeds the
first time with `usedBackupCode = true` and one fewer remaining code, and the
identical presentation against the resulting state fails; presenting a code
that TOTP accepts at both instants succeeds both times with no change to the
backup-code list — TOTP codes are not single-use. -/
theorem c7_backup_once_totp_reusable (totpValid : String → String → Millis → Bool)
    (hashFn : String → String) (u : UserDoc) (code : String) (now1 now2 : Millis)
    (hcode : code ≠ "") (hactive : u.isActive = true)
    (hen : u.twoFactorAuth.enabled = true) :
    ((totpValid (u.twoFactorAuth.secret.getD "") code now1 = false) →
     (totpValid (u.twoFactorAuth.secret.getD "") code now2 = false) →
     (u.twoFactorAuth.backupCodes.count (hashFn code) = 1) →
     (verify2FAToken totpValid hashFn u.id code (some u) now1).resp =
        Verify2FAResp.verified true (u.twoFactorAuth.backupCodes.length - 1) ∧
     (verify2FAToken totpValid hashFn u.id code
        ((verify2FAToken totpValid hashFn u.id code (some u) now1).savedUser) now2).resp =
        Verify2FAResp.badRequest "Invalid 2FA code or backup code") ∧
    ((totpValid (u.twoFactorAuth.secret.getD "") code now1 = true) →
     (totpValid (u.twoFactorAuth.secret.getD "") code now2 = true) →
     (verify2FAToken totpValid hashFn u.id code (some u) now1).resp =
        Verify2FAResp.verified false u.twoFactorAuth.backupCodes.length ∧
     (verify2FAToken totpValid hashFn u.id code
        ((verify2FAToken totpValid hashFn u.id code (some u) now1).savedUser) now2).resp =
        Verify2FAResp.verified false u.twoFactorAuth.backupCodes.length) := by
  constructor
  · intro hb1 hb2 hcount
    have hmem : hashFn code ∈ u.twoFactorAuth.backupCodes :=
      List.count_pos_iff.mp (by omega)
    have hrm := removeFirst_length u.twoFactorAuth.backupCodes (hashFn code) hmem
    have hsome := backupAttempt_eq_some hashFn u.twoFactorAuth.backupCodes code hmem
    have hnone := backupAttempt_eq_none hashFn
      (removeFirst u.twoFactorAuth.backupCodes (hashFn code)) code
      (not_mem_removeFirst_of_count_le_one _ _ (by omega))
    constructor
    · simp [verify2FAToken, hcode, hactive, hen, hb1, hsome, hrm]
    · simp [verify2FAToken, hcode, hactive, hen, hb1, hb2, hsome, hnone]
  · intro ht1 ht2
    constructor
    · simp [verify2FAToken, hcode, hactive, hen, ht1]
    · simp [verify2FAToken, hcode, hactive, hen, ht1, ht2]

/-- C7 witness: the backup-code half at a concrete user holding the hash of
`code1`, with a TOTP verifier that never accepts. -/
theorem c7_backup_once_totp_reusable_witness :
    c7User.twoFactorAuth.backupCodes.count (prefixHash "code1") = 1 ∧
    (verify2FAToken totpNever prefixHash 7 "code1"
      ((verify2FAToken totpNever prefixHash 7 "code1" (some c7User) 100).savedUser) 200).resp =
      Verify2FAResp.badRequest "Invalid 2FA code or backup code" :=
  ⟨by decide,
    ((c7_backup_once_totp_reusable totpNever prefixHash c7User "code1" 100 200
      (by decide) rfl rfl).1 rfl rfl (by decide)).2⟩

/-- C8 counterexample: `generateBackupCodes` draws 10 independent random
values and nothing enforces distinctness — under the (possible) random stream
that always returns 0, `verifyAndEnable2FA` succeeds yet returns ten copies
of `00000000`, so the operation does NOT generate 10 distinct codes. -/
theorem c8_backup_codes_not_distinct_counterexample :
    (verifyAndEnable2FA totpAlways prefixHash (fun _ => 0) "123456" (some c8User) 0).resp =
      EnableResp.enabled (List.replicate 10 "00000000") ∧
    ¬ (List.replicate 10 "00000000").Nodup := by
  constructor
  · decide
  · decide

/-- C8 amended: on successful setup verification the operation sets
`enabled = true`, clears all refresh tokens, and returns exactly 10 backup
codes — each 8 uppercase-hex characters, NOT guaranteed pairwise distinct —
in plaintext, storing only their (unsalted) hashes. -/
theorem c8_enable2fa_amended (totpValid : String → String → Millis → Bool)
    (hashFn : String → String) (rand : Nat → Nat) (token : String)
    (u : UserDoc) (now : Millis) (secret : String)
    (htok : token ≠ "") (hsec : u.twoFactorAuth.secret = some secret)
    (hnoten : u.twoFactorAuth.enabled = false)
    (hv : totpValid secret token now = true) :
    (verifyAndEnable2FA totpValid hashFn rand token (some u) now).resp =
      EnableResp.enabled (generateBackupCodes rand 10) ∧
    (generateBackupCodes rand 10).length = 10 ∧
    (∀ c ∈ generateBackupCodes rand 10, c.length = 8 ∧ ∀ ch ∈ c.data, ch ∈ hexUpperChars) ∧
    (verifyAndEnable2FA totpValid hashFn rand token (some u) now).savedUser =
      some { u with
        twoFactorAuth :=
          ⟨true, some secret, (generateBackupCodes rand 10).map hashFn, some now⟩
        refreshTokens := [] } := by
  refine ⟨?_, ?_, ?_, ?_⟩
  · simp [verifyAndEnable2FA, htok, hsec, hnoten, hv]
  · simp [generateBackupCodes]
  · intro c hc
    simp only [generateBackupCodes, List.mem_map, List.mem_range] at hc
    obtain ⟨i, hi, hci⟩ := hc
    subst hci
    constructor
    · simp [toUpperHex8, String.length]
    · intro ch hch
      simp only [toUpperHex8, List.mem_map, List.mem_range] at hch
      obtain ⟨j, hj, hchj⟩ := hch
      subst hchj
      exact hexDigitChar_mem _ (Nat.mod_lt _ (by omega))
  · simp [verifyAndEnable2FA, htok, hsec, hnoten, hv]

/-- C8 witness: the amended claim at a concrete user and random stream. -/
theorem c8_enable2fa_amended_witness :
    c8User.twoFactorAuth.secret = some "S" ∧
    (verifyAndEnable2FA totpAlways prefixHash (fun i => i) "123456" (some c8User) 0).resp =
      EnableResp.enabled (generateBackupCodes (fun i => i) 10) :=
  ⟨rfl,
    (c8_enable2fa_amended totpAlways prefixHash (fun i => i) "123456" c8User 0 "S"
      (by decide) rfl rfl rfl).1⟩

/-- C9 counterexample: the store's only unique index on users is the compound
`{ storageCompanyId, email }`, so a collection holding two ACTIVE users with
the same email in two different tenants is accepted, and the login lookup by
email alone matches both of them — email is not unique across the whole
collection and the lookup does not identify at most one active user. -/
theorem c9_global_email_uniqueness_counterexample :
    storeAcceptsCollection [c9UserA, c9UserB] = true ∧
    c9UserA.email = c9UserB.email ∧
    c9UserA.storageCompanyId ≠ c9UserB.storageCompanyId ∧
    (findActiveByEmail [c9UserA, c9UserB] "dup@x.com").length = 2 := by
  refine ⟨by decide, rfl, by decide, by decide⟩

/-- C9 amended: the credential store enforces email uniqueness only per
storage company: any collection admissible for `userSchema`'s unique indexes
has pairwise-distinct `(storageCompanyId, email)` pairs. -/
theorem c9_per_tenant_uniqueness_amended (coll : List UserDoc)
    (h : storeAcceptsCollection coll = true) :
    List.Pairwise
      (fun a b => ¬(a.storageCompanyId = b.storageCompanyId ∧ a.email = b.email))
      coll := by
  have h0 : pairwiseDistinct
      (coll.map (indexKey ⟨["storageCompanyId", "email"], true⟩)) = true := by
    have hm := List.all_eq_true.mp h ⟨["storageCompanyId", "email"], true⟩
      (by simp [userSchemaIndexes])
    simpa using hm
  have hp := pairwiseDistinct_pairwise (indexKey ⟨["storageCompanyId", "email"], true⟩) coll h0
  refine hp.imp ?_
  intro a b hne hab
  apply hne
  simp [indexKey, fieldVal, hab.1, hab.2]

/-- C9 witness: the amended claim at a concrete two-user collection. -/
theorem c9_per_tenant_uniqueness_amended_witness :
    storeAcceptsCollection [c9UserA, c9UserC] = true ∧
    List.Pairwise
      (fun a b => ¬(a.storageCompanyId = b.storageCompanyId ∧ a.email = b.email))
      [c9UserA, c9UserC] :=
  ⟨by decide, c9_per_tenant_uniqueness_amended [c9UserA, c9UserC] (by decide)⟩

end Guardian
